import Mathlib

/-!
Verification of the query-batch processing pipeline of `check_positions`
(`src/bot.py`) against its specification.

The Python source is shallowly embedded:

* `MAX_QUERIES`, `MAX_FILE_SIZE` — the guardrail constants (bot.py lines 34-36).
* `ResultRecord` — the structured answer of the external Result Row Source
  (`organic_ya.Organic.search_xmlriver` together with the `xmltree.XmlTree`
  header/row derivations); the collaborator lives outside this repository and
  is opaque to the core, so it is modelled as a value from which a header
  (`XmlTree.get_header`) and a row (`XmlTree(...).get_row`) can be read off.
  A failing lookup (any raised exception) is `none`.
* `stepLoop` — the `for i, query in enumerate(queries, 1)` loop body of
  `process_queries` (bot.py lines 73-110), with the CSV writer's output
  modelled as the list of written rows and the externally visible effects
  (progress edits, `asyncio.sleep`, replies) as an event trace.
* `process_queries` — bot.py lines 49-128.
* `extract_queries_from_text` — bot.py lines 130-141.
* `extract_queries_from_file_check` — the guard section of
  `extract_queries_from_file` (bot.py lines 143-156).
* `handle_message_send` — the attachment construction of `handle_message`
  (bot.py lines 221-233).
-/

/-- `MAX_QUERIES = 10000` (bot.py line 34). -/
def MAX_QUERIES : Nat := 10000

/-- `MAX_FILE_SIZE = 10 * 1024 * 1024` (bot.py line 35). -/
def MAX_FILE_SIZE : Nat := 10 * 1024 * 1024

/-- Whitespace characters removed by Python `str.strip()` (ASCII range). -/
def isSpaceChar (c : Char) : Bool :=
  c = ' ' || c = '\t' || c = '\n' || c = '\r' || c = '\x0b' || c = '\x0c'

/-- Python `str.strip()`: drop leading and trailing whitespace. -/
def pyStrip (s : String) : String :=
  ⟨((s.data.dropWhile isSpaceChar).reverse.dropWhile isSpaceChar).reverse⟩

/-- Python `line.startswith('#')`. -/
def startsWithHash (s : String) : Bool :=
  match s.data with
  | '#' :: _ => true
  | _ => false

/-- The structured answer of the external lookup for one query: the column
names `xmltree.XmlTree.get_header(xml_data)` derives from it and the value
list `xmltree.XmlTree(xml_data, query).get_row()` derives from it. -/
structure ResultRecord where
  header : List String
  row : List String
deriving DecidableEq

/-- The Result Row Source: one external lookup per query string, `none`
standing for an opaque raised exception (network error, malformed response,
timeout). -/
def RowSource : Type := String → Option ResultRecord

/-- Externally visible effects of one `process_queries` run:
`progress i total` is the `message.edit_text` of bot.py line 99 (the message
text carries the 1-based loop index `i` and `total_queries`), `sleep` is the
`asyncio.sleep(SLEEP_BETWEEN_REQUESTS)` of line 105, `replyTooMany n` the
reply of line 61, `replyNothing` the reply of line 113. -/
inductive Event where
  | progress (i total : Nat)
  | sleep
  | replyTooMany (n : Nat)
  | replyNothing
deriving DecidableEq

/-- The loop state of `process_queries`: `header_written`, the rows the
`csv.writer` has written to `output` so far, `processed`, and the event
trace. -/
structure LoopState where
  headerWritten : Bool
  rows : List (List String)
  processed : Nat
  events : List Event
deriving DecidableEq

/-- Initial state (bot.py lines 66-71). -/
def initState : LoopState :=
  { headerWritten := false, rows := [], processed := 0, events := [] }

/-- One run of the `for i, query in enumerate(queries, 1)` loop of
`process_queries` (bot.py lines 73-110), started at 1-based index `i`:
a query empty after `strip()` is skipped; otherwise `search_xmlriver` is
invoked once and on failure the loop logs and continues (no retry, no
abort); on success the header is written first if not yet written, then the
row, `processed` is incremented, every 10th index edits the status message,
and the pacing sleep runs. -/
def stepLoop (src : RowSource) (total : Nat) : Nat → List String → LoopState → LoopState
  | _, [], st => st
  | i, q :: rest, st =>
    if pyStrip q = "" then
      stepLoop src total (i + 1) rest st
    else
      match src (pyStrip q) with
      | none => stepLoop src total (i + 1) rest st
      | some r =>
        let st1 := if st.headerWritten then st
          else { st with rows := st.rows ++ [r.header], headerWritten := true }
        let st2 := { st1 with rows := st1.rows ++ [r.row], processed := st1.processed + 1 }
        let st3 := if i % 10 = 0 then
            { st2 with events := st2.events ++ [Event.progress i total] }
          else st2
        let st4 := { st3 with events := st3.events ++ [Event.sleep] }
        stepLoop src total (i + 1) rest st4

/-- The outcome of one query: `none` when the query is empty after trimming
(skipped, line 74) or when the lookup raises; `some r` when the lookup
succeeds. -/
def lookupOutcome (src : RowSource) (q : String) : Option ResultRecord :=
  if pyStrip q = "" then none else src (pyStrip q)

/-- The successful records of a run, in input order. -/
def successes (src : RowSource) (qs : List String) : List ResultRecord :=
  qs.filterMap (lookupOutcome src)

/-- The CSV rows a run writes, given its successful records in order: nothing
when there is no success; otherwise the first success's header followed by
one data row per success. -/
def csvRowsOf : List ResultRecord → List (List String)
  | [] => []
  | r :: rest => r.header :: (r :: rest).map (fun x => x.row)

/-- Double every quote character, for quoted CSV fields. -/
def escapeQuotes : List Char → List Char
  | [] => []
  | c :: rest =>
    if c = '"' then '"' :: '"' :: escapeQuotes rest else c :: escapeQuotes rest

/-- One `csv.writer.writerow` field: quoted when it holds a separator, quote
or line break, with quotes doubled (Python `csv` minimal quoting). -/
def csvField (s : String) : String :=
  if s.data.any (fun c => c = ',' || c = '"' || c = '\r' || c = '\n') then
    ⟨'"' :: (escapeQuotes s.data ++ ['"'])⟩
  else s

/-- One `csv.writer.writerow` line: fields joined by commas, terminated by
the writer's default `\r\n`. -/
def csvRow (r : List String) : String :=
  String.intercalate "," (r.map csvField) ++ "\r\n"

/-- The accumulated `output.getvalue()` text of a run. -/
def csvText (rows : List (List String)) : String :=
  String.join (rows.map csvRow)

/-- UTF-8 encoding of one Unicode code point, as naturals. -/
def utf8EncodeCodePoint (n : Nat) : List Nat :=
  if n < 0x80 then [n]
  else if n < 0x800 then [0xC0 + n / 0x40, 0x80 + n % 0x40]
  else if n < 0x10000 then
    [0xE0 + n / 0x1000, 0x80 + n / 0x40 % 0x40, 0x80 + n % 0x40]
  else
    [0xF0 + n / 0x40000, 0x80 + n / 0x1000 % 0x40, 0x80 + n / 0x40 % 0x40,
      0x80 + n % 0x40]

/-- UTF-8 bytes of a string, as naturals. -/
def utf8Bytes (s : String) : List Nat :=
  s.data.flatMap (fun c => utf8EncodeCodePoint c.toNat)

/-- `csv_content.encode('utf-8-sig')` (bot.py line 123): the UTF-8 byte-order
marker followed by the UTF-8 encoding. -/
def encodeUtf8Sig (s : String) : List Nat :=
  239 :: 187 :: 191 :: utf8Bytes s

/-- Result of `process_queries`: the returned byte payload (or `None`), the
event trace, the final `processed` count, and the CSV rows written. -/
structure ProcResult where
  payload : Option (List Nat)
  events : List Event
  processed : Nat
  rows : List (List String)
deriving DecidableEq

/-- `process_queries` (bot.py lines 49-128): reject batches over
`MAX_QUERIES` before any lookup; run the loop; with zero processed queries
reply and return `None`; otherwise return the accumulated CSV text encoded
as `utf-8-sig` (the `if not csv_content` guard of line 120 kept as in
source). -/
def process_queries (src : RowSource) (queries : List String) : ProcResult :=
  if queries.length > MAX_QUERIES then
    { payload := none, events := [Event.replyTooMany queries.length],
      processed := 0, rows := [] }
  else
    let st := stepLoop src queries.length 1 queries initState
    if st.processed = 0 then
      { payload := none, events := st.events ++ [Event.replyNothing],
        processed := st.processed, rows := st.rows }
    else
      let csv := csvText st.rows
      if csv = "" then
        { payload := none, events := st.events, processed := st.processed,
          rows := st.rows }
      else
        { payload := some (encodeUtf8Sig csv), events := st.events,
          processed := st.processed, rows := st.rows }

/-- Characters Python `str.splitlines` treats as line boundaries (the ones
arising in `\n`/`\r\n`/`\r` delimited text). -/
def isLineBreak (c : Char) : Bool := c = '\n' || c = '\r'

/-- Split a character list at line-break characters. -/
def splitLinesAux : List Char → List Char → List (List Char)
  | [], acc => [acc.reverse]
  | c :: rest, acc =>
    if isLineBreak c then acc.reverse :: splitLinesAux rest []
    else splitLinesAux rest (c :: acc)

/-- Python `text.splitlines()` on `\n`/`\r`-delimited text (an empty segment
arises between the two characters of a `\r\n` pair; `splitlines` would not
produce it, but every such segment is blank and is dropped by the caller's
filter, so the two splitting disciplines extract the same queries). -/
def splitLines (s : String) : List String :=
  (splitLinesAux s.data []).map (fun cs => ⟨cs⟩)

/-- `extract_queries_from_text` (bot.py lines 130-141): empty text yields
`[]`; otherwise split the stripped text into lines, strip each line, and
keep the non-empty ones not starting with `#`, in order. -/
def extract_queries_from_text (text : String) : List String :=
  if text = "" then []
  else
    (splitLines (pyStrip text)).foldl
      (fun queries line =>
        let l := pyStrip line
        if l ≠ "" ∧ startsWithHash l = false then queries ++ [l] else queries)
      []

/-- Outcome of the guard section of `extract_queries_from_file`
(bot.py lines 148-156) on the declared document metadata. -/
inductive FileCheck where
  | fileTooLarge
  | unsupportedType
  | proceedDownload
deriving DecidableEq

/-- The guards of `extract_queries_from_file` (bot.py lines 148-156):
`if message.document.file_size and message.document.file_size > MAX_FILE_SIZE`
rejects as too large (Python truthiness: `None` and `0` are falsy, so the
size bound is only consulted for a present, non-zero declared size); then
the MIME type must be `text/plain` or `application/octet-stream`; otherwise
the file proceeds to download and decoding. The actual size of the file's
content is never consulted before the download. -/
def extract_queries_from_file_check (file_size : Option Nat) (mime : String) :
    FileCheck :=
  if (match file_size with
      | none => false
      | some s => decide (s ≠ 0) && decide (s > MAX_FILE_SIZE)) then
    FileCheck.fileTooLarge
  else if ¬ (mime = "text/plain" ∨ mime = "application/octet-stream") then
    FileCheck.unsupportedType
  else
    FileCheck.proceedDownload

/-- Specification device: the event trace one loop run emits, described
directly by recursion over the queries (to be proved equal to the trace
`stepLoop` accumulates). -/
def eventsOf (src : RowSource) (total : Nat) : Nat → List String → List Event
  | _, [] => []
  | i, q :: rest =>
    if pyStrip q = "" then eventsOf src total (i + 1) rest
    else
      match src (pyStrip q) with
      | none => eventsOf src total (i + 1) rest
      | some _ =>
        (if i % 10 = 0 then [Event.progress i total] else []) ++
          Event.sleep :: eventsOf src total (i + 1) rest

/-- Number of pacing sleeps in an event trace. -/
def countSleep : List Event → Nat
  | [] => 0
  | Event.sleep :: es => countSleep es + 1
  | _ :: es => countSleep es

/-- The suggested attachment filename of `handle_message` (bot.py line 232):
`f"search_results_{len(queries)}_queries.csv"`, built from the number of
extracted queries. -/
def attachmentFilename (queries : List String) : String :=
  "search_results_" ++ toString queries.length ++ "_queries.csv"

/-- The sending step of `handle_message` (bot.py lines 221-233): run
`process_queries`; when it returns a payload, send it as a document under
the suggested filename. -/
def handle_message_send (src : RowSource) (queries : List String) :
    Option (String × List Nat) :=
  match (process_queries src queries).payload with
  | none => none
  | some bs => some (attachmentFilename queries, bs)

/-! ## Concrete inputs used by witnesses and counterexamples -/

/-- A 10001-query batch. -/
def qsBig : List String := List.replicate 10001 "q"

/-- A source that always succeeds. -/
def srcAllOk : RowSource := fun _ => some ⟨["h"], ["v"]⟩

/-- A source that always fails. -/
def srcAllFail : RowSource := fun _ => none

/-- The byte payload of a one-query run under `srcAllOk`. -/
def bsW7 : List Nat := encodeUtf8Sig (csvText [["h"], ["v"]])

/-- A source whose two records imply different column sets. -/
def srcTwoHeaders : RowSource := fun q =>
  if q = "a" then some ⟨["ha1"], ["ra"]⟩
  else some ⟨["hb1", "hb2"], ["rb1", "rb2"]⟩

/-- A source that fails exactly on the query `bad`. -/
def srcOneBad : RowSource := fun q =>
  if q = "bad" then none else some ⟨["h"], [q]⟩

/-- A source that fails exactly on the query `x`. -/
def srcFailX : RowSource := fun q =>
  if q = "x" then none else some ⟨["h"], ["r"]⟩

/-- Ten queries whose first lookup fails under `srcFailX` and whose other
nine succeed. -/
def qsTen : List String := ["x", "b", "c", "d", "e", "f", "g", "h", "i", "j"]

/-- Ten queries that all succeed under `srcFailX`. -/
def qsTenOk : List String := ["a", "b", "c", "d", "e", "f", "g", "h", "i", "j"]

/-- Is an event a progress edit? -/
def isProgressEvent : Event → Bool
  | Event.progress _ _ => true
  | _ => false

/-- A source succeeding only on the query `a`. -/
def srcOnlyA : RowSource := fun q =>
  if q = "a" then some ⟨["h"], ["r"]⟩ else none

/-- The byte payload of a two-query run under `srcOnlyA`. -/
def bsW9 : List Nat := encodeUtf8Sig (csvText [["h"], ["r"]])

/-! ## Loop characterization lemmas -/

theorem stepLoop_events (src : RowSource) (total : Nat) :
    ∀ (qs : List String) (i : Nat) (st : LoopState),
    (stepLoop src total i qs st).events = st.events ++ eventsOf src total i qs := by
  intro qs
  induction qs with
  | nil => intro i st; simp [stepLoop, eventsOf]
  | cons q rest ih =>
    intro i st
    by_cases hq : pyStrip q = ""
    · simp [stepLoop, eventsOf, hq, ih]
    · rcases hsrc : src (pyStrip q) with _ | r
      · simp [stepLoop, eventsOf, hq, hsrc, ih]
      · by_cases hw : st.headerWritten <;> by_cases hi : i % 10 = 0 <;>
          simp [stepLoop, eventsOf, hq, hsrc, hw, hi, ih]

theorem stepLoop_processed (src : RowSource) (total : Nat) :
    ∀ (qs : List String) (i : Nat) (st : LoopState),
    (stepLoop src total i qs st).processed =
      st.processed + (successes src qs).length := by
  intro qs
  induction qs with
  | nil => intro i st; simp [stepLoop, successes]
  | cons q rest ih =>
    intro i st
    by_cases hq : pyStrip q = ""
    · simp [stepLoop, successes, lookupOutcome, hq, ih]
    · rcases hsrc : src (pyStrip q) with _ | r
      · simp [stepLoop, successes, lookupOutcome, hq, hsrc, ih]
      · by_cases hw : st.headerWritten <;> by_cases hi : i % 10 = 0 <;>
          simp [stepLoop, successes, lookupOutcome, hq, hsrc, hw, hi, ih] <;>
          omega

theorem stepLoop_rows (src : RowSource) (total : Nat) :
    ∀ (qs : List String) (i : Nat) (st : LoopState),
    (stepLoop src total i qs st).rows =
      st.rows ++ (if st.headerWritten then (successes src qs).map (fun x => x.row)
        else csvRowsOf (successes src qs)) := by
  intro qs
  induction qs with
  | nil => intro i st; cases st.headerWritten <;> simp [stepLoop, successes, csvRowsOf]
  | cons q rest ih =>
    intro i st
    by_cases hq : pyStrip q = ""
    · simp [stepLoop, successes, lookupOutcome, hq, ih]
    · rcases hsrc : src (pyStrip q) with _ | r
      · simp [stepLoop, successes, lookupOutcome, hq, hsrc, ih]
      · by_cases hw : st.headerWritten <;> by_cases hi : i % 10 = 0 <;>
          simp [stepLoop, successes, lookupOutcome, csvRowsOf, hq, hsrc, hw, hi, ih]

theorem countSleep_append (a b : List Event) :
    countSleep (a ++ b) = countSleep a + countSleep b := by
  induction a with
  | nil => simp [countSleep]
  | cons e a ih => cases e <;> simp [countSleep, ih, Nat.add_right_comm]

theorem countSleep_eventsOf (src : RowSource) (total : Nat) :
    ∀ (qs : List String) (i : Nat),
    countSleep (eventsOf src total i qs) = (successes src qs).length := by
  intro qs
  induction qs with
  | nil => intro i; simp [eventsOf, successes, countSleep]
  | cons q rest ih =>
    intro i
    by_cases hq : pyStrip q = ""
    · simp [eventsOf, successes, lookupOutcome, hq, ih]
    · rcases hsrc : src (pyStrip q) with _ | r
      · simp [eventsOf, successes, lookupOutcome, hq, hsrc, ih]
      · by_cases hi : i % 10 = 0 <;>
          simp [eventsOf, successes, lookupOutcome, hq, hsrc, hi,
            countSleep_append, countSleep, ih]

theorem progress_mem_eventsOf (src : RowSource) (total : Nat) :
    ∀ (qs : List String) (i j : Nat) (hj : j < qs.length),
    (i + j) % 10 = 0 → (lookupOutcome src (qs.get ⟨j, hj⟩)).isSome →
    Event.progress (i + j) total ∈ eventsOf src total i qs := by
  intro qs
  induction qs with
  | nil => intro i j hj; exact absurd hj (by simp)
  | cons q rest ih =>
    intro i j hj hmod hsome
    cases j with
    | zero =>
      simp only [Nat.add_zero] at hmod ⊢
      have hget : (q :: rest).get ⟨0, hj⟩ = q := rfl
      rw [hget] at hsome
      unfold lookupOutcome at hsome
      by_cases hq : pyStrip q = ""
      · rw [if_pos hq] at hsome; exact absurd hsome (by simp)
      · rw [if_neg hq] at hsome
        rcases Option.isSome_iff_exists.mp hsome with ⟨r, hr⟩
        simp [eventsOf, hq, hr, hmod]
    | succ j' =>
      have hj' : j' < rest.length := by simpa using hj
      have hmod' : (i + 1 + j') % 10 = 0 := by
        have : i + 1 + j' = i + (j' + 1) := by omega
        rw [this]; exact hmod
      have hsome' : (lookupOutcome src (rest.get ⟨j', hj'⟩)).isSome := by
        simpa using hsome
      have hmem := ih i.succ j' hj' hmod' hsome'
      have heq : i + 1 + j' = i + (j' + 1) := by omega
      rw [heq] at hmem
      by_cases hq : pyStrip q = ""
      · simpa [eventsOf, hq] using hmem
      · rcases hsrc : src (pyStrip q) with _ | r
        · simpa [eventsOf, hq, hsrc] using hmem
        · by_cases hi : i % 10 = 0 <;> simp [eventsOf, hq, hsrc, hi, hmem]

theorem length_filterMap_of_isSome {α β : Type} (f : α → Option β) :
    ∀ (l : List α), (∀ a ∈ l, (f a).isSome) →
    (l.filterMap f).length = l.length := by
  intro l
  induction l with
  | nil => simp
  | cons a l ih =>
    intro h
    rcases Option.isSome_iff_exists.mp (h a (by simp)) with ⟨b, hb⟩
    simp [List.filterMap_cons, hb, ih fun x hx => h x (by simp [hx])]

theorem process_queries_processed (src : RowSource) (qs : List String)
    (h : ¬ qs.length > MAX_QUERIES) :
    (process_queries src qs).processed = (successes src qs).length := by
  have hp := stepLoop_processed src qs.length qs 1 initState
  simp only [initState] at hp
  simp only [process_queries, if_neg h]
  split
  · simpa using hp
  · split <;> simpa using hp

theorem process_queries_rows (src : RowSource) (qs : List String)
    (h : ¬ qs.length > MAX_QUERIES) :
    (process_queries src qs).rows = csvRowsOf (successes src qs) := by
  have hr := stepLoop_rows src qs.length qs 1 initState
  simp only [initState, Bool.false_eq_true, if_false, List.nil_append] at hr
  simp only [process_queries, if_neg h]
  split
  · simpa using hr
  · split <;> simpa using hr

theorem process_queries_events (src : RowSource) (qs : List String)
    (h : ¬ qs.length > MAX_QUERIES) :
    (process_queries src qs).events = eventsOf src qs.length 1 qs ∨
    (process_queries src qs).events =
      eventsOf src qs.length 1 qs ++ [Event.replyNothing] := by
  have he := stepLoop_events src qs.length qs 1 initState
  simp only [initState, List.nil_append] at he
  simp only [process_queries, if_neg h]
  split
  · right; simpa using congrArg (fun l => l ++ [Event.replyNothing]) he
  · left; split <;> simpa using he

theorem extract_foldl (lines : List String) :
    ∀ (acc : List String),
    (lines.foldl
      (fun queries line =>
        let l := pyStrip line
        if l ≠ "" ∧ startsWithHash l = false then queries ++ [l] else queries)
      acc) =
    acc ++ (lines.map pyStrip).filter
      (fun l => decide (l ≠ "" ∧ startsWithHash l = false)) := by
  induction lines with
  | nil => intro acc; simp
  | cons line rest ih =>
    intro acc
    by_cases hl : pyStrip line ≠ "" ∧ startsWithHash (pyStrip line) = false
    · simp [List.foldl_cons, hl, ih]
    · simp [List.foldl_cons, hl, ih]

/-! ## Claim theorems -/

/-- C8 (confirmed): `extract_queries_from_text` splits on line boundaries,
trims each line, drops lines empty after trimming and lines beginning with
`#`, and returns the remaining trimmed lines in input order (the filter of
the trimmed line list); the empty input yields the empty sequence; the
function is total, so no input causes an error. The spec's example
`"foo\n# comment\n\nbar"` extracts `["foo", "bar"]`. -/
theorem C8_extract_queries_from_text :
    extract_queries_from_text "" = [] ∧
    (∀ text : String, extract_queries_from_text text =
      ((splitLines (pyStrip text)).map pyStrip).filter
        (fun l => decide (l ≠ "" ∧ startsWithHash l = false))) ∧
    extract_queries_from_text "foo\n# comment\n\nbar" = ["foo", "bar"] := by
  refine ⟨rfl, ?_, by decide⟩
  intro text
  by_cases ht : text = ""
  · subst ht; decide
  · simp only [extract_queries_from_text, if_neg ht]
    rw [extract_foldl]
    simp

/-- C10 (confirmed): in `extract_queries_from_file`, the 10 MiB ceiling is
checked only for a present, non-zero declared `file_size`; a document whose
declared size is `None` or `0` is never rejected as too large and, with an
accepted MIME type, proceeds to download and decoding (the actual content
size is not an input of the guard at all). -/
theorem C10_size_check_gap :
    ∀ (mime : String),
    extract_queries_from_file_check none mime ≠ FileCheck.fileTooLarge ∧
    extract_queries_from_file_check (some 0) mime ≠ FileCheck.fileTooLarge ∧
    ((mime = "text/plain" ∨ mime = "application/octet-stream") →
      extract_queries_from_file_check none mime = FileCheck.proceedDownload ∧
      extract_queries_from_file_check (some 0) mime = FileCheck.proceedDownload) := by
  intro mime
  by_cases hm : mime = "text/plain" ∨ mime = "application/octet-stream" <;>
    simp [extract_queries_from_file_check, hm]

/-- Witness for C10 at the declared type `text/plain`. -/
theorem C10_size_check_gap_witness :
    extract_queries_from_file_check none "text/plain" = FileCheck.proceedDownload ∧
    extract_queries_from_file_check (some 0) "text/plain" =
      FileCheck.proceedDownload :=
  (C10_size_check_gap "text/plain").2.2 (Or.inl rfl)

/-- C3 (confirmed): a batch longer than `MAX_QUERIES` is rejected
immediately: no payload, the only emitted event is the too-many reply,
nothing is processed, and the outcome does not depend on the Result Row
Source at all (it is never invoked). -/
theorem C3_batch_ceiling (src : RowSource) (qs : List String)
    (h : qs.length > MAX_QUERIES) :
    (process_queries src qs).payload = none ∧
    (process_queries src qs).events = [Event.replyTooMany qs.length] ∧
    (process_queries src qs).processed = 0 ∧
    ∀ src' : RowSource, process_queries src qs = process_queries src' qs := by
  refine ⟨?_, ?_, ?_, fun src' => ?_⟩ <;> simp [process_queries, if_pos h]

/-- Witness for C3 at a concrete 10001-query batch. -/
theorem C3_batch_ceiling_witness :
    qsBig.length > MAX_QUERIES ∧
    (process_queries srcAllOk qsBig).payload = none ∧
    process_queries srcAllOk qsBig = process_queries srcAllFail qsBig := by
  have h : qsBig.length > MAX_QUERIES := by
    rw [qsBig, List.length_replicate]; decide
  exact ⟨h, (C3_batch_ceiling srcAllOk qsBig h).1,
    (C3_batch_ceiling srcAllOk qsBig h).2.2.2 srcAllFail⟩

/-- C4 (confirmed): within the batch ceiling, a run that ends with
`processed = 0` yields no byte payload and emits the distinct
"nothing processed" reply. -/
theorem C4_empty_result (src : RowSource) (qs : List String)
    (hlen : ¬ qs.length > MAX_QUERIES)
    (h0 : (process_queries src qs).processed = 0) :
    (process_queries src qs).payload = none ∧
    Event.replyNothing ∈ (process_queries src qs).events := by
  have hlen0 : (successes src qs).length = 0 := by
    rw [← process_queries_processed src qs hlen]; exact h0
  have hst : (stepLoop src qs.length 1 qs initState).processed = 0 := by
    rw [stepLoop_processed src qs.length qs 1 initState, hlen0]
    rfl
  simp [process_queries, if_neg hlen, hst]

/-- Witness for C4: one query whose lookup fails. -/
theorem C4_empty_result_witness :
    ¬ (["a"] : List String).length > MAX_QUERIES ∧
    (process_queries srcAllFail ["a"]).processed = 0 ∧
    (process_queries srcAllFail ["a"]).payload = none ∧
    Event.replyNothing ∈ (process_queries srcAllFail ["a"]).events := by
  have h1 : ¬ (["a"] : List String).length > MAX_QUERIES := by decide
  have h2 : (process_queries srcAllFail ["a"]).processed = 0 := by decide
  exact ⟨h1, h2, C4_empty_result srcAllFail ["a"] h1 h2⟩

theorem process_queries_payload (src : RowSource) (qs : List String) :
    (process_queries src qs).payload = none ∨
    (process_queries src qs).payload =
      some (encodeUtf8Sig (csvText (process_queries src qs).rows)) := by
  by_cases hlen : qs.length > MAX_QUERIES
  · left; simp [process_queries, if_pos hlen]
  · simp only [process_queries, if_neg hlen]
    by_cases h0 : (stepLoop src qs.length 1 qs initState).processed = 0
    · left; simp [h0]
    · by_cases hc : csvText (stepLoop src qs.length 1 qs initState).rows = ""
      · left; simp [h0, hc]
      · right; simp [h0, hc]

/-- C7 (confirmed): whenever `process_queries` returns a byte payload, it is
the accumulated CSV text encoded as UTF-8 prefixed with the byte-order
marker, so the payload begins with the BOM bytes `EF BB BF`. -/
theorem C7_payload_encoding (src : RowSource) (qs : List String)
    (bs : List Nat) (h : (process_queries src qs).payload = some bs) :
    bs = encodeUtf8Sig (csvText (process_queries src qs).rows) ∧
    bs.take 3 = [239, 187, 191] := by
  rcases process_queries_payload src qs with hp | hp
  · rw [hp] at h; exact absurd h (by simp)
  · rw [hp] at h
    have hbs := (Option.some.inj h).symm
    subst hbs
    exact ⟨rfl, rfl⟩

/-- Witness for C7: one successful query produces a BOM-prefixed payload. -/
theorem C7_payload_encoding_witness :
    (process_queries srcAllOk ["q"]).payload = some bsW7 ∧
    bsW7.take 3 = [239, 187, 191] := by
  have h : (process_queries srcAllOk ["q"]).payload = some bsW7 := by decide
  exact ⟨h, (C7_payload_encoding srcAllOk ["q"] bsW7 h).2⟩

/-- C2 (confirmed): within the batch ceiling, when the run has at least one
success, the CSV consists of exactly one header row — the one derived from
the first record whose lookup succeeded — followed by one data row per
successful record under that same header, whatever columns the later
records' own headers would imply. -/
theorem C2_header_once (src : RowSource) (qs : List String)
    (r : ResultRecord) (rest : List ResultRecord)
    (hlen : ¬ qs.length > MAX_QUERIES)
    (hs : successes src qs = r :: rest) :
    (process_queries src qs).rows =
      r.header :: (r :: rest).map (fun x => x.row) := by
  rw [process_queries_rows src qs hlen, hs]
  rfl

/-- Witness for C2: two successful records with different implied headers;
only the first record's header is written, both rows appear under it. -/
theorem C2_header_once_witness :
    ¬ (["a", "b"] : List String).length > MAX_QUERIES ∧
    successes srcTwoHeaders ["a", "b"] =
      [⟨["ha1"], ["ra"]⟩, ⟨["hb1", "hb2"], ["rb1", "rb2"]⟩] ∧
    (process_queries srcTwoHeaders ["a", "b"]).rows =
      (⟨["ha1"], ["ra"]⟩ : ResultRecord).header ::
        ([(⟨["ha1"], ["ra"]⟩ : ResultRecord),
          ⟨["hb1", "hb2"], ["rb1", "rb2"]⟩].map (fun x => x.row)) := by
  have h1 : ¬ (["a", "b"] : List String).length > MAX_QUERIES := by decide
  have h2 : successes srcTwoHeaders ["a", "b"] =
      [⟨["ha1"], ["ra"]⟩, ⟨["hb1", "hb2"], ["rb1", "rb2"]⟩] := by decide
  exact ⟨h1, h2, C2_header_once srcTwoHeaders ["a", "b"] _ _ h1 h2⟩

/-- C1 (confirmed): within the batch ceiling, when the lookup raises for the
query `b` (at position `as.length`) and succeeds for every other query, the
loop continues past `b` with no retry and no abort: the final `processed`
count equals the number of successful lookups, the CSV rows are exactly the
header plus one row per successful query in input order, and removing `b`
from the batch leaves the successful records unchanged — `b` contributes no
row. -/
theorem C1_failure_isolation (src : RowSource) (as cs : List String)
    (b : String)
    (hlen : ¬ (as ++ b :: cs).length > MAX_QUERIES)
    (hbne : pyStrip b ≠ "")
    (hfail : src (pyStrip b) = none)
    (hok : ∀ q ∈ as ++ cs, (lookupOutcome src q).isSome) :
    (process_queries src (as ++ b :: cs)).processed = as.length + cs.length ∧
    (process_queries src (as ++ b :: cs)).rows =
      csvRowsOf (successes src (as ++ b :: cs)) ∧
    successes src (as ++ b :: cs) = successes src (as ++ cs) ∧
    (successes src (as ++ cs)).length = as.length + cs.length := by
  have hb : lookupOutcome src b = none := by
    simp [lookupOutcome, hbne, hfail]
  have hsucc : successes src (as ++ b :: cs) = successes src (as ++ cs) := by
    simp [successes, List.filterMap_append, List.filterMap_cons, hb]
  have hlenS : (successes src (as ++ cs)).length = as.length + cs.length := by
    rw [successes, length_filterMap_of_isSome _ _ hok]
    simp
  refine ⟨?_, process_queries_rows _ _ hlen, hsucc, hlenS⟩
  rw [process_queries_processed _ _ hlen, hsucc, hlenS]

/-- Witness for C1: the middle query of three fails, the other two succeed;
two queries are processed and the CSV holds a header and their two rows. -/
theorem C1_failure_isolation_witness :
    (¬ (["a", "bad", "c"] : List String).length > MAX_QUERIES) ∧
    pyStrip "bad" ≠ "" ∧ srcOneBad (pyStrip "bad") = none ∧
    (process_queries srcOneBad ["a", "bad", "c"]).processed = 1 + 1 ∧
    successes srcOneBad (["a"] ++ "bad" :: ["c"]) =
      successes srcOneBad (["a"] ++ ["c"]) := by
  have h1 : ¬ ((["a"] ++ "bad" :: ["c"]) : List String).length > MAX_QUERIES := by
    decide
  have h2 : pyStrip "bad" ≠ "" := by decide
  have h3 : srcOneBad (pyStrip "bad") = none := by decide
  have h4 : ∀ q ∈ (["a"] ++ ["c"] : List String),
      (lookupOutcome srcOneBad q).isSome := by decide
  have h := C1_failure_isolation srcOneBad ["a"] ["c"] "bad" h1 h2 h3 h4
  exact ⟨h1, h2, h3, h.1, h.2.2.1⟩

/-- C5 counterexample: with ten queries of which the first fails and the
other nine succeed, the run's only progress edit carries the numbers 10/10
(the 1-based loop index and the total), while the processed count never
exceeds its final value 9 — so the status message does not contain the
processed count. -/
theorem C5_counterexample :
    (process_queries srcFailX qsTen).processed = 9 ∧
    (process_queries srcFailX qsTen).events.filter isProgressEvent =
      [Event.progress 10 10] ∧
    (9 : Nat) ≠ 10 := by decide

/-- C5 amended (proved): after every successfully processed item whose
1-based index `k` is a multiple of 10, the run's event trace contains a
progress edit whose message carries that index and the total count
(`k/total`) — not the processed count. -/
theorem C5_progress_cadence (src : RowSource) (qs : List String) (k : Nat)
    (hlen : ¬ qs.length > MAX_QUERIES)
    (hk1 : 1 ≤ k) (hk : k - 1 < qs.length) (hmod : k % 10 = 0)
    (hsome : (lookupOutcome src (qs.get ⟨k - 1, hk⟩)).isSome) :
    Event.progress k qs.length ∈ (process_queries src qs).events := by
  have heq : 1 + (k - 1) = k := by omega
  have hmod' : (1 + (k - 1)) % 10 = 0 := by rw [heq]; exact hmod
  have hmem := progress_mem_eventsOf src qs.length qs 1 (k - 1) hk hmod' hsome
  rw [heq] at hmem
  rcases process_queries_events src qs hlen with he | he <;> rw [he] <;>
    simp [hmem]

/-- Witness for the amended C5 at index 10 of a ten-query batch. -/
theorem C5_progress_cadence_witness :
    ((10 : Nat) % 10 = 0) ∧
    Event.progress 10 qsTenOk.length ∈ (process_queries srcFailX qsTenOk).events := by
  refine ⟨by decide, ?_⟩
  exact C5_progress_cadence srcFailX qsTenOk 10 (by decide) (by decide)
    (by decide) (by decide) (by decide)

/-- C6 counterexample: a single non-empty query whose lookup fails produces
no pacing sleep at all — the 0.1-second delay is skipped on failure, contrary
to the claim that it runs on success and failure alike. -/
theorem C6_counterexample :
    pyStrip "a" ≠ "" ∧
    (process_queries srcAllFail ["a"]).events = [Event.replyNothing] ∧
    Event.sleep ∉ (process_queries srcAllFail ["a"]).events := by decide

/-- C6 amended (proved): the pacing delay runs exactly once per successfully
processed query — the number of sleeps in any run's event trace equals the
final processed count, so a query whose lookup fails (or that is skipped as
empty) gets no delay. -/
theorem C6_pacing (src : RowSource) (qs : List String) :
    countSleep (process_queries src qs).events =
      (process_queries src qs).processed := by
  by_cases hlen : qs.length > MAX_QUERIES
  · simp [process_queries, if_pos hlen, countSleep]
  · rw [process_queries_processed src qs hlen]
    rcases process_queries_events src qs hlen with he | he <;> rw [he] <;>
      simp [countSleep_append, countSleep_eventsOf, countSleep]

/-- C9 counterexample: with two extracted queries of which only one lookup
succeeds, the processed count is 1 but the suggested attachment filename
carries 2, the total number of extracted queries — not the processed-query
count. -/
theorem C9_counterexample :
    (process_queries srcOnlyA ["a", "b"]).processed = 1 ∧
    (handle_message_send srcOnlyA ["a", "b"]).map Prod.fst =
      some "search_results_2_queries.csv" ∧
    ("search_results_2_queries.csv" : String) ≠
      "search_results_" ++ toString (1 : Nat) ++ "_queries.csv" := by decide

/-- C9 amended (proved): whenever a CSV payload is produced and sent, the
suggested filename carries the total number of extracted queries
(`len(queries)`), and the processed count is only bounded above by that
number. -/
theorem C9_attachment_name (src : RowSource) (qs : List String)
    (fn : String) (bs : List Nat)
    (h : handle_message_send src qs = some (fn, bs)) :
    fn = attachmentFilename qs ∧
    fn = "search_results_" ++ toString qs.length ++ "_queries.csv" ∧
    (process_queries src qs).processed ≤ qs.length := by
  unfold handle_message_send at h
  rcases hp : (process_queries src qs).payload with _ | bs'
  · rw [hp] at h; exact absurd h (by simp)
  · rw [hp] at h
    simp only [Option.some.injEq, Prod.mk.injEq] at h
    refine ⟨h.1.symm, by rw [← h.1]; rfl, ?_⟩
    by_cases hlen : qs.length > MAX_QUERIES
    · simp [process_queries, if_pos hlen]
    · rw [process_queries_processed src qs hlen, successes]
      exact List.length_filterMap_le _ _

/-- Witness for the amended C9 at a concrete two-query batch. -/
theorem C9_attachment_name_witness :
    handle_message_send srcOnlyA ["a", "b"] =
      some ("search_results_2_queries.csv", bsW9) ∧
    ("search_results_2_queries.csv" : String) =
      attachmentFilename ["a", "b"] ∧
    (process_queries srcOnlyA ["a", "b"]).processed ≤
      (["a", "b"] : List String).length := by
  have h : handle_message_send srcOnlyA ["a", "b"] =
      some ("search_results_2_queries.csv", bsW9) := by decide
  have hc := C9_attachment_name srcOnlyA ["a", "b"]
    "search_results_2_queries.csv" bsW9 h
  exact ⟨h, hc.1, hc.2.2⟩
